import Mathlib

/-!
Verification of the connection-management core of InvokeAI's node editor:
`src/invokeai/frontend/web/src/features/nodes/hooks/useConnection.ts`.

The hook exposes three handlers — `onConnectStart`, `onConnect`,
`onConnectEnd` — over five pieces of transient state
(`$pendingConnection`, `$edgePendingUpdate`, `$didUpdateEdge`,
`$mouseOverNode`, `$addNodeCmdk`), the redux nodes slice
(nodes + edges), and the session template map.  We embed the handlers as
pure functions from an explicit state record to a new state record plus a
list of issued effects (dispatched edge-mutation batches and
`updateNodeInternals` refresh requests).

JavaScript truthiness is modelled faithfully: the source tests strings
with `assert(nodeId && handleId && handleType, ...)` and
`if (mouseOverNodeId)`, under which the empty string counts as absent.

The compatibility resolver `getFirstValidConnection` and the edge builder
`connectionToEdge` live in other modules of the repository; the resolver
is abstracted as a parameter (every theorem about `onConnectEnd` holds
for an arbitrary resolver), and `connectionToEdge` is modelled from the
spec.
-/

abbrev NodeId := String
abbrev HandleId := String

/-- Handle polarity, `'source' | 'target'` in the source. -/
inductive HandleType where
  | source
  | target
deriving DecidableEq, Repr

/-- A field template (input or output). Only its identity matters to the
connection core; we carry the field's declared data-type name. -/
structure FieldTemplate where
  fieldType : String
deriving DecidableEq, Repr

/-- A node template: `outputs` maps output-handle ids to output field
templates, `inputs` maps input-handle ids to input field templates.
JS object maps are modelled as association lists. -/
structure Template where
  outputs : List (HandleId × FieldTemplate)
  inputs : List (HandleId × FieldTemplate)
deriving DecidableEq, Repr

/-- The session template storage `$templates`: node type → template. -/
abbrev Templates := List (String × Template)

/-- A node of the graph store: `id` and `data.type` (the template key). -/
structure Node where
  id : NodeId
  dataType : String
deriving DecidableEq, Repr

/-- An edge of the graph store. -/
structure Edge where
  id : String
  source : NodeId
  sourceHandle : Option HandleId
  target : NodeId
  targetHandle : Option HandleId
deriving DecidableEq, Repr

/-- A renderer connection description (xyflow `Connection`). -/
structure Connection where
  source : NodeId
  sourceHandle : Option HandleId
  target : NodeId
  targetHandle : Option HandleId
deriving DecidableEq, Repr

/-- The record stored in `$pendingConnection` by `onConnectStart`. -/
structure PendingConnection where
  nodeId : NodeId
  handleId : HandleId
  handleType : HandleType
  fieldTemplate : FieldTemplate
deriving DecidableEq, Repr

/-- One element of an `edgesChanged` batch: `{type:'add', item}` or
`{type:'remove', id}`. -/
inductive EdgeChange where
  | add (item : Edge)
  | remove (id : String)
deriving DecidableEq, Repr

/-- The transient scalars read and written by the handlers. -/
structure ConnState where
  pendingConnection : Option PendingConnection
  edgePendingUpdate : Option Edge
  didUpdateEdge : Bool
  mouseOverNode : Option NodeId
  addNodeCmdk : Bool
deriving DecidableEq, Repr

/-- The observable effects of one handler invocation: each `dispatch
(edgesChanged batch)` appends a batch, each `updateNodeInternals ids`
appends a refresh request. -/
structure Effects where
  batches : List (List EdgeChange)
  refreshes : List (List NodeId)
deriving DecidableEq, Repr

/-- No dispatches, no refresh requests. -/
def noEffects : Effects := ⟨[], []⟩

/-- JS truthiness of a `string | null` value: `null` and `""` are falsy. -/
def truthy : Option String → Bool
  | none => false
  | some s => !s.isEmpty

/-- JS object indexing `m[k]` over an association-list model. -/
def lookupA {α : Type} (m : List (String × α)) (k : String) : Option α :=
  (m.find? (fun p => p.1 == k)).map (fun p => p.2)

/-- Modelled from the spec: `connectionToEdge`
(`features/nodes/store/util/reactFlowUtil.ts`, not under src/) converts
the renderer's connection description into an `Edge`, copying the four
endpoint fields and assigning a fresh identifier that is treated as
opaque thereafter. The identifier is modelled as a string derived from
the endpoints; no theorem depends on its value. -/
def connectionToEdge (c : Connection) : Edge :=
  { id := String.intercalate "-"
      ["edge", c.source, c.sourceHandle.getD "", c.target, c.targetHandle.getD ""]
    source := c.source
    sourceHandle := c.sourceHandle
    target := c.target
    targetHandle := c.targetHandle }

/-- The type of `getFirstValidConnection`
(`features/nodes/store/util/getFirstValidConnection.ts`, not under
src/): candidate endpoints, the nodes slice, the templates and the edge
eligible for replacement, returning a valid connection or nothing. The
`onConnectEnd` embedding is parameterised over it. -/
abbrev Resolver :=
  NodeId → Option HandleId → NodeId → Option HandleId →
  List Node → List Edge → Templates → Option Edge → Option Connection

/-- The chained lookups of `onConnectStart`: find the node by id, then
its template by `node.data.type`, then the field template for `handleId`
under `outputs` (source handles) or `inputs` (target handles). -/
def fieldTemplateFor (templates : Templates) (nodes : List Node)
    (nid hid : String) (ht : HandleType) : Option FieldTemplate :=
  match nodes.find? (fun n => n.id == nid) with
  | none => none
  | some node =>
    match lookupA templates node.dataType with
    | none => none
    | some template =>
      lookupA (if ht = HandleType.source then template.outputs else template.inputs) hid

/-- Embedding of `onConnectStart`.  The source first runs
`assert(nodeId && handleId && handleType, 'Invalid connection start
event')` (an exception, modelled as `Except.error`, under JS truthiness),
then performs the three lookups, returning silently (state unchanged) on
any miss, and on success stores the pending-connection record. -/
def onConnectStart (templates : Templates) (nodes : List Node)
    (nodeId handleId : Option String) (handleType : Option HandleType)
    (st : ConnState) : Except String ConnState :=
  match nodeId, handleId, handleType with
  | some nid, some hid, some ht =>
    if nid.isEmpty || hid.isEmpty then
      Except.error "Invalid connection start event"
    else
      match fieldTemplateFor templates nodes nid hid ht with
      | none => Except.ok st
      | some ft =>
        Except.ok ({ st with pendingConnection := some ⟨nid, hid, ht, ft⟩ })
  | _, _, _ => Except.error "Invalid connection start event"

/-- Embedding of `onConnect`: build the edge from the connection,
dispatch one `edgesChanged` batch containing the single add, request one
refresh for the two endpoints, clear `$pendingConnection`. -/
def onConnect (c : Connection) (st : ConnState) : ConnState × Effects :=
  let newEdge := connectionToEdge c
  ({ st with pendingConnection := none },
   { batches := [[EdgeChange.add newEdge]]
     refreshes := [[newEdge.source, newEdge.target]] })

/-- The bail-out test of `onConnectEnd`:
`(edgePendingUpdate && !mouseOverNodeId) || $didUpdateEdge.get()`. -/
def bailCond (st : ConnState) : Bool :=
  (st.edgePendingUpdate.isSome && !(truthy st.mouseOverNode)) || st.didUpdateEdge

/-- Embedding of `onConnectEnd`, parameterised over the resolver.
Mirrors the source: bail-out first; then return if no pending
connection; then, if the mouse is over a node (truthy id), derive the
candidate endpoints from the pending connection's handle type, run the
resolver, on success dispatch the add (plus, when an edge update is
pending, the remove of that edge and the extra refresh endpoints, also
setting `$didUpdateEdge`), and clear the pending connection; otherwise
open the add-node command palette. -/
def onConnectEnd (resolver : Resolver) (templates : Templates)
    (nodes : List Node) (edges : List Edge) (st : ConnState) : ConnState × Effects :=
  if bailCond st then
    ({ st with pendingConnection := none }, noEffects)
  else
    match st.pendingConnection with
    | none => (st, noEffects)
    | some pc =>
      if truthy st.mouseOverNode then
        let mon := st.mouseOverNode.getD ""
        let source := if pc.handleType = HandleType.source then pc.nodeId else mon
        let sourceHandle := if pc.handleType = HandleType.source then some pc.handleId else none
        let target := if pc.handleType = HandleType.target then pc.nodeId else mon
        let targetHandle := if pc.handleType = HandleType.target then some pc.handleId else none
        match resolver source sourceHandle target targetHandle
            nodes edges templates st.edgePendingUpdate with
        | some conn =>
          let newEdge := connectionToEdge conn
          match st.edgePendingUpdate with
          | some epu =>
            ({ st with pendingConnection := none, didUpdateEdge := true },
             { batches := [[EdgeChange.add newEdge, EdgeChange.remove epu.id]]
               refreshes := [[newEdge.source, newEdge.target, epu.source, epu.target]] })
          | none =>
            ({ st with pendingConnection := none },
             { batches := [[EdgeChange.add newEdge]]
               refreshes := [[newEdge.source, newEdge.target]] })
        | none => ({ st with pendingConnection := none }, noEffects)
      else
        ({ st with addNodeCmdk := true }, noEffects)

/-- The arguments of one `onConnectStart` invocation. -/
structure StartCall where
  nodeId : Option String
  handleId : Option String
  handleType : Option HandleType
deriving DecidableEq, Repr

/-- Run one `onConnectStart` call; a raised assertion leaves the state
untouched (the exception propagates before any store write). -/
def stepStart (templates : Templates) (nodes : List Node)
    (st : ConnState) (c : StartCall) : ConnState :=
  match onConnectStart templates nodes c.nodeId c.handleId c.handleType st with
  | Except.ok st' => st'
  | Except.error _ => st

/-- Run a sequence of `onConnectStart` calls with no intervening
terminal handler. -/
def runStarts (templates : Templates) (nodes : List Node)
    (st : ConnState) (cs : List StartCall) : ConnState :=
  cs.foldl (stepStart templates nodes) st

/-- The pending-connection record an `onConnectStart` call would store,
when its assertion passes and all three lookups succeed; `none` when the
call raises or is a silent no-op. -/
def startRecord (templates : Templates) (nodes : List Node)
    (c : StartCall) : Option PendingConnection :=
  match c.nodeId, c.handleId, c.handleType with
  | some nid, some hid, some ht =>
    if nid.isEmpty || hid.isEmpty then none
    else
      match fieldTemplateFor templates nodes nid hid ht with
      | none => none
      | some ft =>
        some ({ nodeId := nid, handleId := hid, handleType := ht, fieldTemplate := ft })
  | _, _, _ => none

/-! Concrete data used by the witness theorems. -/

/-- A float field template. -/
def ft0 : FieldTemplate := ⟨"FloatField"⟩

/-- A template with one output handle `out1` and one input handle `in1`. -/
def tmpl0 : Template := ⟨[("out1", ft0)], [("in1", ft0)]⟩

/-- A template map with a single node type `add`. -/
def templates0 : Templates := [("add", tmpl0)]

/-- A node of type `add`. -/
def nodeA : Node := ⟨"A", "add"⟩

/-- A second node of type `add`. -/
def nodeB : Node := ⟨"B", "add"⟩

/-- A pending connection grabbed on `A`'s output `out1`. -/
def pc0 : PendingConnection := ⟨"A", "out1", HandleType.source, ft0⟩

/-- A resolved candidate connection from `A.out1` to `C.in1`. -/
def conn0 : Connection := ⟨"A", some "out1", "C", some "in1"⟩

/-- An existing edge `E = (A,out1,B,in1)` with id `e1`. -/
def edgeE : Edge := ⟨"e1", "A", some "out1", "B", some "in1"⟩

/-- A resolver that always fails. -/
def resolverNone : Resolver := fun _ _ _ _ _ _ _ _ => none

/-- A resolver that always returns `conn0`. -/
def resolver0 : Resolver := fun _ _ _ _ _ _ _ _ => some conn0

/-- The idle state: nothing pending, no flags. -/
def st0 : ConnState := ⟨none, none, false, none, false⟩

/-- Mid-reconnection, mouse over no node: the bail-out case. -/
def stBail : ConnState := ⟨some pc0, some edgeE, false, none, false⟩

/-- Reconnection drop on node `C`: pending `pc0`, edge `E` pending
update, mouse over `C`. -/
def stC1 : ConnState := ⟨some pc0, some edgeE, false, some "C", false⟩

/-- Drag ended over empty canvas with `pc0` pending. -/
def stC3 : ConnState := ⟨some pc0, none, false, none, false⟩

/-- Drag ended over node `B` with `pc0` pending. -/
def stC5 : ConnState := ⟨some pc0, none, false, some "B", false⟩

/-- Drag ended over node `B` with nothing pending. -/
def stC10 : ConnState := ⟨none, none, false, some "B", false⟩

/-- A state in which a reconnection was already committed. -/
def stDone : ConnState := ⟨some pc0, none, true, some "B", false⟩

/-- A start call grabbing `A`'s output `out1`. -/
def callA : StartCall := ⟨some "A", some "out1", some HandleType.source⟩

/-- A start call grabbing `A`'s input `in1`. -/
def callT : StartCall := ⟨some "A", some "in1", some HandleType.target⟩

/-- A start call naming a node that does not exist. -/
def callBad : StartCall := ⟨some "Z", some "out1", some HandleType.source⟩

lemma stepStart_eq (templates : Templates) (nodes : List Node)
    (st : ConnState) (c : StartCall) :
    stepStart templates nodes st c =
      match startRecord templates nodes c with
      | some r => { st with pendingConnection := some r }
      | none => st := by
  rcases c with ⟨nodeId, handleId, handleType⟩
  cases nodeId <;> cases handleId <;> cases handleType <;> try rfl
  rename_i nid hid ht
  by_cases h : nid.isEmpty || hid.isEmpty
  · simp [stepStart, onConnectStart, startRecord, h]
  · cases hft : fieldTemplateFor templates nodes nid hid ht <;>
      simp [stepStart, onConnectStart, startRecord, h, hft]

lemma runStarts_no_success (templates : Templates) (nodes : List Node)
    (cs : List StartCall)
    (h : ∀ c' ∈ cs, startRecord templates nodes c' = none) :
    ∀ st, runStarts templates nodes st cs = st := by
  induction cs with
  | nil => intro st; rfl
  | cons c cs ih =>
    intro st
    have hc : startRecord templates nodes c = none := h c (List.mem_cons_self c cs)
    have hstep : stepStart templates nodes st c = st := by rw [stepStart_eq, hc]
    have ih' := ih (fun c' hc' => h c' (List.mem_cons_of_mem c hc'))
    rw [runStarts, List.foldl_cons, hstep]
    exact ih' st

/-- C4: `onConnect` dispatches exactly one mutation batch containing a
single add of the edge built from the connection, issues exactly one
refresh request for exactly `[newEdge.source, newEdge.target]`, and
clears the pending connection; the result does not depend on any other
state (no validation is re-run). -/
theorem onConnect_commits_single_add (c : Connection) (st : ConnState) :
    onConnect c st =
      ({ st with pendingConnection := none },
       { batches := [[EdgeChange.add (connectionToEdge c)]]
         refreshes := [[(connectionToEdge c).source, (connectionToEdge c).target]] }) := rfl

/-- C2: whenever (`$edgePendingUpdate` is set and `$mouseOverNode` is
unset) or `$didUpdateEdge` is true, `onConnectEnd` clears
`$pendingConnection` and returns with zero mutation batches and zero
refresh requests, regardless of the pending-connection value; the
bail-out test precedes every other branch. -/
theorem onConnectEnd_bails_out (resolver : Resolver) (templates : Templates)
    (nodes : List Node) (edges : List Edge) (st : ConnState)
    (h : (st.edgePendingUpdate.isSome = true ∧ st.mouseOverNode = none)
        ∨ st.didUpdateEdge = true) :
    onConnectEnd resolver templates nodes edges st =
      ({ st with pendingConnection := none }, noEffects) := by
  have hbail : bailCond st = true := by
    rcases h with ⟨h1, h2⟩ | h
    · simp [bailCond, h1, h2, truthy]
    · simp [bailCond, h]
  simp [onConnectEnd, hbail]

/-- C2 witness: the bail-out at a concrete mid-reconnection state. -/
theorem onConnectEnd_bails_out_witness :
    stBail.edgePendingUpdate.isSome = true ∧ stBail.mouseOverNode = none
    ∧ onConnectEnd resolver0 templates0 [nodeA, nodeB] [edgeE] stBail =
        ({ stBail with pendingConnection := none }, noEffects) :=
  ⟨by decide, by decide,
   onConnectEnd_bails_out resolver0 templates0 [nodeA, nodeB] [edgeE] stBail
     (Or.inl ⟨by decide, by decide⟩)⟩

/-- C3: with a pending connection, no bail-out, and the mouse over no
node, `onConnectEnd` opens the add-node affordance and leaves the
pending connection (and everything else) unchanged, with no mutation and
no refresh. -/
theorem onConnectEnd_opens_add_node (resolver : Resolver) (templates : Templates)
    (nodes : List Node) (edges : List Edge) (st : ConnState)
    (pc : PendingConnection)
    (hpc : st.pendingConnection = some pc)
    (hmon : st.mouseOverNode = none)
    (hbail : bailCond st = false) :
    onConnectEnd resolver templates nodes edges st =
      ({ st with addNodeCmdk := true }, noEffects) := by
  simp [onConnectEnd, hbail, hpc, truthy, hmon]

/-- C3 witness: empty-canvas drop at a concrete state. -/
theorem onConnectEnd_opens_add_node_witness :
    stC3.pendingConnection = some pc0 ∧ stC3.mouseOverNode = none
    ∧ bailCond stC3 = false
    ∧ onConnectEnd resolverNone templates0 [nodeA] [] stC3 =
        ({ stC3 with addNodeCmdk := true }, noEffects) :=
  ⟨by decide, by decide, by decide,
   onConnectEnd_opens_add_node resolverNone templates0 [nodeA] [] stC3 pc0
     (by decide) (by decide) (by decide)⟩

/-- C5: with a pending connection, no bail-out, the mouse over a node,
and a failing resolver, `onConnectEnd` issues no mutation and no refresh
and clears the pending connection. -/
theorem onConnectEnd_resolver_failure (resolver : Resolver) (templates : Templates)
    (nodes : List Node) (edges : List Edge) (st : ConnState)
    (pc : PendingConnection) (m : NodeId)
    (hpc : st.pendingConnection = some pc)
    (hmon : st.mouseOverNode = some m)
    (hm : m.isEmpty = false)
    (hbail : bailCond st = false)
    (hres : resolver (if pc.handleType = HandleType.source then pc.nodeId else m)
        (if pc.handleType = HandleType.source then some pc.handleId else none)
        (if pc.handleType = HandleType.target then pc.nodeId else m)
        (if pc.handleType = HandleType.target then some pc.handleId else none)
        nodes edges templates st.edgePendingUpdate = none) :
    onConnectEnd resolver templates nodes edges st =
      ({ st with pendingConnection := none }, noEffects) := by
  simp [onConnectEnd, hbail, hpc, truthy, hmon, hm, hres]

/-- C5 witness: a failing resolver at a concrete drop on node `B`. -/
theorem onConnectEnd_resolver_failure_witness :
    stC5.pendingConnection = some pc0 ∧ stC5.mouseOverNode = some "B"
    ∧ bailCond stC5 = false
    ∧ onConnectEnd resolverNone templates0 [nodeA, nodeB] [] stC5 =
        ({ stC5 with pendingConnection := none }, noEffects) :=
  ⟨by decide, by decide, by decide,
   onConnectEnd_resolver_failure resolverNone templates0 [nodeA, nodeB] [] stC5 pc0 "B"
     (by decide) (by decide) (by decide) (by decide) rfl⟩

/-- C10: when the bail-out does not hold and no connection is pending,
`onConnectEnd` returns with the state fully unchanged and no effects; in
particular the add-node affordance is not opened even if the mouse is
over no node. -/
theorem onConnectEnd_nothing_pending (resolver : Resolver) (templates : Templates)
    (nodes : List Node) (edges : List Edge) (st : ConnState)
    (hbail : bailCond st = false)
    (hpc : st.pendingConnection = none) :
    onConnectEnd resolver templates nodes edges st = (st, noEffects) := by
  simp [onConnectEnd, hbail, hpc]

/-- C10 witness: nothing pending at a concrete state. -/
theorem onConnectEnd_nothing_pending_witness :
    bailCond stC10 = false ∧ stC10.pendingConnection = none
    ∧ onConnectEnd resolverNone templates0 [nodeA] [] stC10 = (stC10, noEffects) :=
  ⟨by decide, by decide,
   onConnectEnd_nothing_pending resolverNone templates0 [nodeA] [] stC10
     (by decide) (by decide)⟩

/-- C1: with a pending connection, no bail-out (mouse over a node, flag
clear), an edge `E` pending update, and a resolver success,
`onConnectEnd` dispatches exactly one mutation batch whose changes are,
in order, the add of the new edge and the removal of `E.id`, sets
`$didUpdateEdge` to true, and issues exactly one refresh request for the
nodes `[newEdge.source, newEdge.target, E.source, E.target]`. -/
theorem onConnectEnd_reconnect_commit (resolver : Resolver) (templates : Templates)
    (nodes : List Node) (edges : List Edge) (st : ConnState)
    (pc : PendingConnection) (m : NodeId) (E : Edge) (conn : Connection)
    (hpc : st.pendingConnection = some pc)
    (hmon : st.mouseOverNode = some m)
    (hm : m.isEmpty = false)
    (hdue : st.didUpdateEdge = false)
    (hepu : st.edgePendingUpdate = some E)
    (hres : resolver (if pc.handleType = HandleType.source then pc.nodeId else m)
        (if pc.handleType = HandleType.source then some pc.handleId else none)
        (if pc.handleType = HandleType.target then pc.nodeId else m)
        (if pc.handleType = HandleType.target then some pc.handleId else none)
        nodes edges templates (some E) = some conn) :
    onConnectEnd resolver templates nodes edges st =
      ({ st with pendingConnection := none, didUpdateEdge := true },
       { batches := [[EdgeChange.add (connectionToEdge conn), EdgeChange.remove E.id]]
         refreshes := [[(connectionToEdge conn).source, (connectionToEdge conn).target,
           E.source, E.target]] }) := by
  have hbail : bailCond st = false := by
    simp [bailCond, hmon, hdue, truthy, hm]
  simp [onConnectEnd, hbail, hpc, hmon, truthy, hm, hepu, hres]

/-- C1 witness: end-to-end scenario 4 at concrete data — dropping the
dragged endpoint of `E = (A,out1,B,in1)` on node `C`. -/
theorem onConnectEnd_reconnect_commit_witness :
    stC1.pendingConnection = some pc0 ∧ stC1.mouseOverNode = some "C"
    ∧ stC1.didUpdateEdge = false ∧ stC1.edgePendingUpdate = some edgeE
    ∧ onConnectEnd resolver0 templates0 [nodeA, nodeB] [edgeE] stC1 =
        ({ stC1 with pendingConnection := none, didUpdateEdge := true },
         { batches := [[EdgeChange.add (connectionToEdge conn0),
             EdgeChange.remove edgeE.id]]
           refreshes := [[(connectionToEdge conn0).source,
             (connectionToEdge conn0).target, edgeE.source, edgeE.target]] }) :=
  ⟨by decide, by decide, by decide, by decide,
   onConnectEnd_reconnect_commit resolver0 templates0 [nodeA, nodeB] [edgeE] stC1
     pc0 "C" edgeE conn0 (by decide) (by decide) (by decide) (by decide) (by decide) rfl⟩

/-- C6: after any sequence of `onConnectStart` calls with no intervening
terminal handler, the single pending-connection cell holds exactly the
record of the most recent call whose assertion passed and whose node,
template, and field-template lookups all succeeded (later calls all
being misses or raises). -/
theorem runStarts_keeps_latest_success (templates : Templates) (nodes : List Node)
    (st : ConnState) (cs₁ cs₂ : List StartCall) (c : StartCall)
    (r : PendingConnection)
    (hc : startRecord templates nodes c = some r)
    (h2 : ∀ c' ∈ cs₂, startRecord templates nodes c' = none) :
    (runStarts templates nodes st (cs₁ ++ c :: cs₂)).pendingConnection = some r := by
  have key : ∀ st', (runStarts templates nodes st' (c :: cs₂)).pendingConnection = some r := by
    intro st'
    rw [runStarts, List.foldl_cons]
    have hstep : stepStart templates nodes st' c =
        { st' with pendingConnection := some r } := by
      rw [stepStart_eq, hc]
    rw [hstep]
    have hrest := runStarts_no_success templates nodes cs₂ h2
      ({ st' with pendingConnection := some r })
    rw [runStarts] at hrest
    rw [hrest]
  rw [runStarts, List.foldl_append]
  exact key _

/-- C6 witness: grabbing `A.in1`, then `A.out1`, then a miss on a
nonexistent node retains exactly the record of the `A.out1` grab. -/
theorem runStarts_keeps_latest_success_witness :
    startRecord templates0 [nodeA] callA = some pc0
    ∧ (∀ c' ∈ [callBad], startRecord templates0 [nodeA] c' = none)
    ∧ (runStarts templates0 [nodeA] st0 ([callT] ++ callA :: [callBad])).pendingConnection
        = some pc0 :=
  ⟨by decide, by decide,
   runStarts_keeps_latest_success templates0 [nodeA] st0 [callT] [callBad] callA pc0
     (by decide) (by decide)⟩

/-- C7: `onConnectStart` raises the invalid-event assertion exactly when
one of the three event fields is absent (JS-falsy: `null`, or the empty
string for the two ids); and when it raises, the state is not modified. -/
theorem onConnectStart_asserts_on_missing (templates : Templates) (nodes : List Node)
    (nodeId handleId : Option String) (handleType : Option HandleType)
    (st : ConnState) :
    (onConnectStart templates nodes nodeId handleId handleType st
        = Except.error "Invalid connection start event"
      ↔ (truthy nodeId = false ∨ truthy handleId = false ∨ handleType = none))
    ∧ (onConnectStart templates nodes nodeId handleId handleType st
        = Except.error "Invalid connection start event"
      → stepStart templates nodes st ⟨nodeId, handleId, handleType⟩ = st) := by
  constructor
  · cases nodeId <;> cases handleId <;> cases handleType <;>
      simp [onConnectStart, truthy]
    rename_i nid hid ht
    by_cases h1 : nid.isEmpty <;> by_cases h2 : hid.isEmpty <;> simp [h1, h2]
    cases hft : fieldTemplateFor templates nodes nid hid ht <;> simp [hft]
  · intro h
    simp [stepStart, h]

/-- C7 witness: a missing node id raises, leaving the state unchanged. -/
theorem onConnectStart_asserts_on_missing_witness :
    onConnectStart templates0 [nodeA] none (some "out1") (some HandleType.source) st0
      = Except.error "Invalid connection start event"
    ∧ stepStart templates0 [nodeA] st0 ⟨none, some "out1", some HandleType.source⟩ = st0 :=
  ⟨(onConnectStart_asserts_on_missing templates0 [nodeA] none (some "out1")
      (some HandleType.source) st0).1.mpr (by decide),
   (onConnectStart_asserts_on_missing templates0 [nodeA] none (some "out1")
      (some HandleType.source) st0).2
     ((onConnectStart_asserts_on_missing templates0 [nodeA] none (some "out1")
        (some HandleType.source) st0).1.mpr (by decide))⟩

/-- C8: with all three arguments present (truthy), if the node, its
template, or the field template for the handle is missing, the call
returns without error and without any state change. -/
theorem onConnectStart_silent_on_miss (templates : Templates) (nodes : List Node)
    (nid hid : String) (ht : HandleType) (st : ConnState)
    (h1 : nid.isEmpty = false) (h2 : hid.isEmpty = false)
    (hmiss : fieldTemplateFor templates nodes nid hid ht = none) :
    onConnectStart templates nodes (some nid) (some hid) (some ht) st
      = Except.ok st := by
  simp [onConnectStart, h1, h2, hmiss]

/-- C8 witness: a start call naming a node absent from the store is a
silent no-op. -/
theorem onConnectStart_silent_on_miss_witness :
    "Z".isEmpty = false ∧ "out1".isEmpty = false
    ∧ fieldTemplateFor templates0 [nodeA] "Z" "out1" HandleType.source = none
    ∧ onConnectStart templates0 [nodeA] (some "Z") (some "out1")
        (some HandleType.source) stC3 = Except.ok stC3 :=
  ⟨by decide, by decide, by decide,
   onConnectStart_silent_on_miss templates0 [nodeA] "Z" "out1" HandleType.source stC3
     (by decide) (by decide) (by decide)⟩

/-- C9: no handler ever lowers `$didUpdateEdge`: a start call and
`onConnect` leave it unchanged, `onConnectEnd` leaves it unchanged or
sets it to true; and once it is true, `onConnectEnd` takes the bail-out
branch — clearing the pending connection with no mutation, no refresh,
and no affordance request. -/
theorem didUpdateEdge_never_lowered (resolver : Resolver) (templates : Templates)
    (nodes : List Node) (edges : List Edge) (c : StartCall) (conn : Connection)
    (st : ConnState) :
    (stepStart templates nodes st c).didUpdateEdge = st.didUpdateEdge
    ∧ (onConnect conn st).1.didUpdateEdge = st.didUpdateEdge
    ∧ ((onConnectEnd resolver templates nodes edges st).1.didUpdateEdge = st.didUpdateEdge
        ∨ (onConnectEnd resolver templates nodes edges st).1.didUpdateEdge = true)
    ∧ (st.didUpdateEdge = true →
        onConnectEnd resolver templates nodes edges st =
          ({ st with pendingConnection := none }, noEffects)) := by
  refine ⟨?_, rfl, ?_, ?_⟩
  · rw [stepStart_eq]; cases startRecord templates nodes c <;> rfl
  · unfold onConnectEnd
    split
    · exact Or.inl rfl
    · split
      · exact Or.inl rfl
      · split
        · dsimp only
          split
          · split
            · exact Or.inr rfl
            · exact Or.inl rfl
          · exact Or.inl rfl
        · exact Or.inl rfl
  · intro h
    have hbail : bailCond st = true := by simp [bailCond, h]
    simp [onConnectEnd, hbail]

/-- C9 witness: with the flag already true at a concrete state, the
handlers keep it true and `onConnectEnd` bails out. -/
theorem didUpdateEdge_never_lowered_witness :
    (stepStart templates0 [nodeA] stDone callA).didUpdateEdge = stDone.didUpdateEdge
    ∧ (onConnect conn0 stDone).1.didUpdateEdge = stDone.didUpdateEdge
    ∧ ((onConnectEnd resolver0 templates0 [nodeA] [] stDone).1.didUpdateEdge
          = stDone.didUpdateEdge
        ∨ (onConnectEnd resolver0 templates0 [nodeA] [] stDone).1.didUpdateEdge = true)
    ∧ onConnectEnd resolver0 templates0 [nodeA] [] stDone =
        ({ stDone with pendingConnection := none }, noEffects) :=
  ⟨(didUpdateEdge_never_lowered resolver0 templates0 [nodeA] [] callA conn0 stDone).1,
   (didUpdateEdge_never_lowered resolver0 templates0 [nodeA] [] callA conn0 stDone).2.1,
   (didUpdateEdge_never_lowered resolver0 templates0 [nodeA] [] callA conn0 stDone).2.2.1,
   (didUpdateEdge_never_lowered resolver0 templates0 [nodeA] [] callA conn0 stDone).2.2.2
     (by decide)⟩
